import Mathlib

/-!
Shallow embedding of the subscription-multiplexing and request-correlation
engine of the go-hyperliquid WebSocket client (`WebSocketAPI` in the Go
source), together with theorems about channel-key derivation, dispatch,
the post request/response protocol and the connection lifecycle.

Strings are modelled as Lean `String`s (the keys involved are ASCII, so the
Go byte-level operations coincide with the character-level ones used here).
Callbacks are opaque and identified by a natural number.  Channels
(`chan interface{}`) are modelled by an explicit slot state: empty, filled
with a value, or closed; receiving from a closed Go channel yields the zero
value `nil`, which the model records explicitly.
-/

/-- Mirrors the Go struct `Subscription` (ws_types.go): type, user, coin,
interval plus the fields that are serialized but never used for keying. -/
structure Subscription where
  typ : String
  user : String
  coin : String
  interval : String
  nSigFigs : Int
  mantissa : Int
  aggregateByTime : Bool
  dex : String
deriving DecidableEq, Repr

/-- Channel key computed inside `Subscribe` (main.go): start from the type,
then append `-user`, `-coin`, `-interval`, each only when non-empty. -/
def subscribeChannelKey (s : Subscription) : String :=
  let k := s.typ
  let k := if s.user ≠ "" then k ++ "-" ++ s.user else k
  let k := if s.coin ≠ "" then k ++ "-" ++ s.coin else k
  let k := if s.interval ≠ "" then k ++ "-" ++ s.interval else k
  k

/-- Channel key computed inside `Unsubscribe` (main.go); the Go code repeats
the derivation verbatim, so the embedding repeats it as well. -/
def unsubscribeChannelKey (s : Subscription) : String :=
  let k := s.typ
  let k := if s.user ≠ "" then k ++ "-" ++ s.user else k
  let k := if s.coin ≠ "" then k ++ "-" ++ s.coin else k
  let k := if s.interval ≠ "" then k ++ "-" ++ s.interval else k
  k

/-- The non-empty optional segments of a subscription, in the fixed
user, coin, interval order. -/
def keySegments (s : Subscription) : List String :=
  [s.user, s.coin, s.interval].filter (fun x => decide (x ≠ ""))

/-- Channel key as worded by the specification: the topic type, then `-`
plus each present segment, concatenated in the fixed order with absent
segments skipped. -/
def specChannelKey (s : Subscription) : String :=
  (keySegments s).foldl (fun acc seg => acc ++ "-" ++ seg) s.typ

/-- Handler registry: the Go map `handlers map[string]func(interface{})`,
modelled as an association list from channel key to an opaque handler id. -/
def Registry : Type := List (String × Nat)

/-- Map lookup `handlers[k]`. -/
def regLookup : List (String × Nat) → String → Option Nat
  | [], _ => none
  | (k', v) :: rest, k => if k' = k then some v else regLookup rest k

/-- Map deletion `delete(handlers, k)`. -/
def regDelete : List (String × Nat) → String → List (String × Nat)
  | [], _ => []
  | (k', v) :: rest, k =>
    if k' = k then regDelete rest k else (k', v) :: regDelete rest k

/-- Map assignment `handlers[k] = v` (overwrites any entry for `k`). -/
def regInsert (reg : List (String × Nat)) (k : String) (v : Nat) :
    List (String × Nat) :=
  (k, v) :: regDelete reg k

/-- A parsed inbound feed envelope as seen by `processMessage`: the channel
label and the optional `coin` / `user` string fields of the decoded data
map (absent when the payload is not an object or lacks the field). -/
structure FeedMessage where
  channel : String
  coinField : Option String
  userField : Option String
deriving DecidableEq, Repr

/-- Dispatch key derivation in `processMessage`: the channel label, then
`-coin` when the data map has a string `coin` field, then `-user` when it
has a string `user` field — note coin before user, the reverse of the
subscribe-time order. -/
def dispatchKey (m : FeedMessage) : String :=
  let k := m.channel
  let k := match m.coinField with
    | some c => k ++ "-" ++ c
    | none => k
  let k := match m.userField with
    | some u => k ++ "-" ++ u
    | none => k
  k

/-- The literal scanned for in the orderUpdates fallback. -/
def ordUpdatesDash : String := "orderUpdates-"

/-- The Go test `len(hKey) > len(p) && hKey[:len(p)] == p`: the key must be
strictly longer than the pattern and start with it. -/
def goKeyMatch (pat k : String) : Bool :=
  decide (pat.length < k.length) && decide (k.data.take pat.data.length = pat.data)

/-- The fallback scan in the `orderUpdates` case of `processMessage`: the
first registry entry whose key strictly extends `"orderUpdates-"`. -/
def orderScan : List (String × Nat) → Option Nat
  | [] => none
  | (k, v) :: rest =>
    if goKeyMatch ordUpdatesDash k = true then some v else orderScan rest

/-- Outcome of dispatching one feed message: a handler id invoked either
with the decoded `[]WsOrder` payload (`withOrders = true`) or with the raw
`response.Data` (`withOrders = false`), or the message dropped. -/
inductive DispatchResult where
  | invoked (handler : Nat) (withOrders : Bool)
  | dropped
deriving DecidableEq, Repr

/-- The feed branch of `processMessage` (reached when the channel is neither
the reserved `"post"` nor `"subscriptionResponse"`): exact lookup of the
suffix-derived key; for channel `"orderUpdates"` additionally the scan for a
strictly extended key, invoking with decoded orders; finally a last lookup
of the same derived key, invoking with the raw data. -/
def processFeed (reg : List (String × Nat)) (m : FeedMessage) : DispatchResult :=
  let key := dispatchKey m
  if m.channel = "orderUpdates" then
    match regLookup reg key with
    | some h => .invoked h true
    | none =>
      match orderScan reg with
      | some h => .invoked h true
      | none =>
        match regLookup reg key with
        | some h => .invoked h false
        | none => .dropped
  else
    match regLookup reg key with
    | some h => .invoked h false
    | none => .dropped

/-- Value delivered on a post response channel by the reader loop: a decoded
payload or an error value (`respType == "error"`). -/
inductive SlotValue where
  | payload (p : Nat)
  | errVal (m : String)
deriving DecidableEq, Repr

/-- State of one buffered response channel `chan interface{}`: nothing sent
yet, one value buffered, or closed (a receive on a closed channel yields the
zero value `nil`). -/
inductive SlotState where
  | empty
  | filled (v : SlotValue)
  | closed
deriving DecidableEq, Repr

/-- Membership test on the correlation table (`_, ok := postHandlers[id]`). -/
def tblHas : List Int → Int → Bool
  | [], _ => false
  | j :: rest, i => if j = i then true else tblHas rest i

/-- Removal from the correlation table (`delete(postHandlers, id)`). -/
def tblRemove : List Int → Int → List Int
  | [], _ => []
  | j :: rest, i => if j = i then tblRemove rest i else j :: tblRemove rest i

/-- Close every channel whose id is still registered (the loop over
`postHandlers` in `Disconnect`). -/
def closeSlots (slots : List (Int × SlotState)) (ids : List Int) :
    List (Int × SlotState) :=
  slots.map (fun p => if tblHas ids p.1 = true then (p.1, SlotState.closed) else p)

/-- Buffer a value into the channel registered under `id` (the send
`ch <- value` performed by `processMessage` for a post response). -/
def fillSlot (slots : List (Int × SlotState)) (id : Int) (v : SlotValue) :
    List (Int × SlotState) :=
  slots.map (fun p => if p.1 = id then (id, SlotState.filled v) else p)

/-- State of one `WebSocketAPI` value: the connection handle (`conn`, nil or
not), the `connected` flag, the handler registry, the ids registered in
`postHandlers`, the state of every response channel ever created, the
`idCounter`, and whether the `done` channel has been closed. -/
structure WsState where
  conn : Option Unit
  connected : Bool
  handlers : List (String × Nat)
  postTable : List Int
  slots : List (Int × SlotState)
  idCounter : Int
  doneClosed : Bool
deriving DecidableEq, Repr

/-- The state produced by `NewWebSocketAPI`: no connection, empty maps. -/
def initState : WsState :=
  { conn := none, connected := false, handlers := [], postTable := [],
    slots := [], idCounter := 0, doneClosed := false }

/-- `Connect`: a no-op returning nil when already connected; otherwise the
dial either fails (error, state unchanged) or succeeds, installing the
handle, setting `connected`, and re-making `done`. -/
def connect (dialOk : Bool) (s : WsState) : WsState × Option String :=
  if s.connected then (s, none)
  else if dialOk then
    ({ s with conn := some (), connected := true, doneClosed := false }, none)
  else (s, some "dial error")

/-- `Disconnect`: a no-op returning nil when not connected; otherwise closes
`done`, clears the registry, closes and deletes every pending response
channel, then closes the transport.  When the transport close fails the
error is returned with `connected` still true (the Go code returns before
the final assignment); otherwise `connected` becomes false.  The handle
`conn` is never reset to nil. -/
def disconnect (closeOk : Bool) (s : WsState) : WsState × Option String :=
  if s.connected then
    let s1 := { s with doneClosed := true, handlers := [],
                       slots := closeSlots s.slots s.postTable,
                       postTable := [] }
    if closeOk then ({ s1 with connected := false }, none)
    else (s1, some "close error")
  else (s, none)

/-- The deferred cleanup when `readLoop` exits (stop signal or read error):
the `connected` flag is cleared; nothing else changes. -/
def readLoopExit (s : WsState) : WsState := { s with connected := false }

/-- The issue phase of `Post` on the connected path: increment `idCounter`,
create an empty buffered channel, register it in the table, send the post
control message.  When the send fails the deferred delete runs and the
error is returned at once. -/
def postIssue (s : WsState) (sendErr : Option String) :
    WsState × Int × Option String :=
  let id := s.idCounter + 1
  let s1 := { s with idCounter := id,
                     slots := (id, SlotState.empty) :: s.slots,
                     postTable := id :: s.postTable }
  match sendErr with
  | some e => ({ s1 with postTable := tblRemove s1.postTable id }, id, some e)
  | none => (s1, id, none)

/-- The blocking select of `Post`, as a function of the channel's state when
the select resolves and of whether the 15-second timer fired: a buffered
error value is returned as the error, a buffered payload as the result, a
closed channel delivers the zero value nil so `Post` returns a nil payload
and a nil error, and an empty channel resolves only by timeout with the
request-timeout error.  `none` means still blocked. -/
def postAwait (slot : SlotState) (timedOut : Bool) :
    Option (Option Nat × Option String) :=
  match slot with
  | .filled (.payload p) => some (some p, none)
  | .filled (.errVal m) => some (none, some m)
  | .closed => some (none, none)
  | .empty => if timedOut then some (none, some "request timeout") else none

/-- The deferred `delete(postHandlers, id)` that runs when `Post` returns. -/
def postReturn (s : WsState) (id : Int) : WsState :=
  { s with postTable := tblRemove s.postTable id }

/-- The duration passed to `time.After` in `Post`, in seconds. -/
def postTimeoutSeconds : Nat := 15

/-- A parsed post response: either an error response (`respType` is
`"error"`, carrying the payload message) or a success payload. -/
inductive PostRespIn where
  | errResp (m : String)
  | okResp (p : Nat)
deriving DecidableEq, Repr

/-- The value `processMessage` sends on the channel: the server's error text
(with the `"unknown error"` default when empty) or the payload. -/
def respValue : PostRespIn → SlotValue
  | .errResp m => .errVal (if m = "" then "unknown error" else m)
  | .okResp p => .payload p

/-- The `"post"` branch of `processMessage`: look the id up in the table;
when present, buffer the resolved value into its channel; when absent, drop
the response silently (the state is unchanged). -/
def processPostResponse (s : WsState) (id : Int) (r : PostRespIn) : WsState :=
  if tblHas s.postTable id = true then
    { s with slots := fillSlot s.slots id (respValue r) }
  else s

/-- `Subscribe` on the connected path: derive the channel key, store the
handler (overwriting), then send the subscribe control message whose
outcome `sendRes` is returned unchanged — a failed send does not undo the
registry write. -/
def subscribeOp (s : WsState) (sub : Subscription) (cb : Nat)
    (sendRes : Option String) : WsState × Option String :=
  let key := subscribeChannelKey sub
  ({ s with handlers := regInsert s.handlers key cb }, sendRes)

/-- `Unsubscribe`: fails with a not-connected error when disconnected;
otherwise derives the same key, deletes the entry, then sends the
unsubscribe control message whose outcome is returned unchanged — a failed
send does not restore the entry. -/
def unsubscribeOp (s : WsState) (sub : Subscription)
    (sendRes : Option String) : WsState × Option String :=
  if s.connected then
    let key := unsubscribeChannelKey sub
    ({ s with handlers := regDelete s.handlers key }, sendRes)
  else (s, some "not connected")

/-- States reachable from `NewWebSocketAPI` by the modelled operations. -/
inductive Reach : WsState → Prop where
  | init : Reach initState
  | connectStep (d : Bool) {s : WsState} : Reach s → Reach (connect d s).1
  | disconnectStep (c : Bool) {s : WsState} : Reach s → Reach (disconnect c s).1
  | readExitStep {s : WsState} : Reach s → Reach (readLoopExit s)
  | postIssueStep (e : Option String) {s : WsState} :
      Reach s → Reach (postIssue s e).1
  | postReturnStep (i : Int) {s : WsState} : Reach s → Reach (postReturn s i)
  | postRespStep (i : Int) (r : PostRespIn) {s : WsState} :
      Reach s → Reach (processPostResponse s i r)
  | subscribeStep (sub : Subscription) (cb : Nat) (e : Option String)
      {s : WsState} : Reach s → Reach (subscribeOp s sub cb e).1
  | unsubscribeStep (sub : Subscription) (e : Option String) {s : WsState} :
      Reach s → Reach (unsubscribeOp s sub e).1

lemma regLookup_regDelete (reg : List (String × Nat)) (k : String) :
    regLookup (regDelete reg k) k = none := by
  induction reg with
  | nil => rfl
  | cons p rest ih =>
    obtain ⟨k', v⟩ := p
    by_cases h : k' = k <;> simp [regDelete, regLookup, h, ih]

lemma tblHas_tblRemove (t : List Int) (i : Int) :
    tblHas (tblRemove t i) i = false := by
  induction t with
  | nil => rfl
  | cons j rest ih =>
    by_cases h : j = i <;> simp [tblRemove, tblHas, h, ih]

lemma str_append_cancel (a : String) {b c : String} (h : a ++ b = a ++ c) :
    b = c := by
  apply String.ext
  have hd := congrArg String.data h
  rw [String.data_append, String.data_append] at hd
  exact List.append_cancel_left hd

lemma swap_key_neq (t u c : String) (hk : u ++ "-" ++ c ≠ c ++ "-" ++ u) :
    t ++ "-" ++ u ++ "-" ++ c ≠ t ++ "-" ++ c ++ "-" ++ u := by
  intro he
  apply hk
  apply str_append_cancel (t ++ "-")
  have e1 : t ++ "-" ++ (u ++ "-" ++ c) = t ++ "-" ++ u ++ "-" ++ c := by
    simp [String.append_assoc]
  have e2 : t ++ "-" ++ (c ++ "-" ++ u) = t ++ "-" ++ c ++ "-" ++ u := by
    simp [String.append_assoc]
  rw [e1, e2, he]

/-- C3: `Subscribe` and `Unsubscribe` derive the same channel key, and it is
exactly the key described by the specification: the topic type, then `-user`
if non-empty, then `-coin` if non-empty, then `-interval` if non-empty, in
that fixed order with absent segments skipped. -/
theorem channel_key_fixed_order (sub : Subscription) :
    subscribeChannelKey sub = unsubscribeChannelKey sub ∧
    subscribeChannelKey sub = specChannelKey sub := by
  refine ⟨rfl, ?_⟩
  unfold subscribeChannelKey specChannelKey keySegments
  by_cases hu : sub.user = "" <;> by_cases hc : sub.coin = "" <;>
    by_cases hi : sub.interval = "" <;> simp [hu, hc, hi]

/-- C7: `Connect` while already connected returns no error and leaves the
state unchanged, for any dial outcome; `Disconnect` while already
disconnected returns no error and leaves the state unchanged, for any
transport-close outcome. -/
theorem connect_disconnect_idempotent :
    (∀ (s : WsState) (d : Bool), s.connected = true → connect d s = (s, none)) ∧
    (∀ (s : WsState) (c : Bool), s.connected = false → disconnect c s = (s, none)) := by
  constructor
  · intro s d h
    simp [connect, h]
  · intro s c h
    simp [disconnect, h]

/-- Witness: a second `Connect` on the freshly connected state and a
`Disconnect` on the initial state are both observable no-ops. -/
theorem connect_disconnect_idempotent_witness :
    connect false (connect true initState).1 = ((connect true initState).1, none) ∧
    disconnect true initState = (initState, none) :=
  ⟨connect_disconnect_idempotent.1 (connect true initState).1 false (by decide),
   connect_disconnect_idempotent.2 initState true (by decide)⟩

/-- C9: subscriptions agreeing on type, user, coin and interval derive the
same channel key regardless of `NSigFigs`, `Mantissa`, `AggregateByTime` and
`Dex`, so subscribing to the second overwrites the first handler in the same
registry slot. -/
theorem key_ignores_extra_fields (s1 s2 : Subscription) (v1 v2 : Nat)
    (reg : List (String × Nat))
    (ht : s1.typ = s2.typ) (hu : s1.user = s2.user)
    (hc : s1.coin = s2.coin) (hi : s1.interval = s2.interval) :
    subscribeChannelKey s1 = subscribeChannelKey s2 ∧
    regLookup (regInsert (regInsert reg (subscribeChannelKey s1) v1)
        (subscribeChannelKey s2) v2) (subscribeChannelKey s1) = some v2 := by
  have hk : subscribeChannelKey s1 = subscribeChannelKey s2 := by
    unfold subscribeChannelKey
    rw [ht, hu, hc, hi]
  refine ⟨hk, ?_⟩
  rw [hk]
  simp [regInsert, regLookup]

/-- Witness: two `l2Book`/`ETH` subscriptions differing only in the four
non-keying fields share a key and the second subscribe wins. -/
theorem key_ignores_extra_fields_witness :
    subscribeChannelKey ⟨"l2Book", "", "ETH", "", 5, 0, false, ""⟩ =
      subscribeChannelKey ⟨"l2Book", "", "ETH", "", 0, 2, true, "dex1"⟩ ∧
    regLookup (regInsert (regInsert []
        (subscribeChannelKey ⟨"l2Book", "", "ETH", "", 5, 0, false, ""⟩) 1)
        (subscribeChannelKey ⟨"l2Book", "", "ETH", "", 0, 2, true, "dex1"⟩) 2)
      (subscribeChannelKey ⟨"l2Book", "", "ETH", "", 5, 0, false, ""⟩) = some 2 :=
  key_ignores_extra_fields _ _ 1 2 [] rfl rfl rfl rfl

/-- C10: a failed subscribe send returns the send error while the handler
stays registered under its channel key, and a failed unsubscribe send
returns the send error while the key stays deleted — neither operation
rolls back its registry mutation. -/
theorem registry_mutation_survives_send_failure (s : WsState)
    (sub : Subscription) (cb : Nat) (e : String)
    (hcon : s.connected = true) :
    ((subscribeOp s sub cb (some e)).2 = some e ∧
      regLookup (subscribeOp s sub cb (some e)).1.handlers
        (subscribeChannelKey sub) = some cb) ∧
    ((unsubscribeOp s sub (some e)).2 = some e ∧
      regLookup (unsubscribeOp s sub (some e)).1.handlers
        (unsubscribeChannelKey sub) = none) := by
  refine ⟨⟨rfl, ?_⟩, ?_, ?_⟩
  · simp [subscribeOp, regInsert, regLookup]
  · simp [unsubscribeOp, hcon]
  · simp [unsubscribeOp, hcon, regLookup_regDelete]

/-- Witness: on a connected state, a failed subscribe send for a `trades`
subscription leaves the handler registered, and a failed unsubscribe send
leaves the key deleted, each returning the send error. -/
theorem registry_mutation_survives_send_failure_witness :
    ((subscribeOp (connect true initState).1 ⟨"trades", "", "BTC", "", 0, 0, false, ""⟩
        4 (some "write failed")).2 = some "write failed" ∧
      regLookup (subscribeOp (connect true initState).1
          ⟨"trades", "", "BTC", "", 0, 0, false, ""⟩ 4 (some "write failed")).1.handlers
        (subscribeChannelKey ⟨"trades", "", "BTC", "", 0, 0, false, ""⟩) = some 4) ∧
    ((unsubscribeOp (connect true initState).1 ⟨"trades", "", "BTC", "", 0, 0, false, ""⟩
        (some "write failed")).2 = some "write failed" ∧
      regLookup (unsubscribeOp (connect true initState).1
          ⟨"trades", "", "BTC", "", 0, 0, false, ""⟩ (some "write failed")).1.handlers
        (unsubscribeChannelKey ⟨"trades", "", "BTC", "", 0, 0, false, ""⟩) = none) :=
  registry_mutation_survives_send_failure (connect true initState).1
    ⟨"trades", "", "BTC", "", 0, 0, false, ""⟩ 4 "write failed" (by decide)

/-- C2: with the 15-second window, a `Post` that receives no matching
response resolves by timeout with the request-timeout error, the deferred
cleanup removes the id from the correlation table when `Post` returns, and
a response for that id arriving afterwards leaves the state unchanged — it
fills no channel and reaches no caller. -/
theorem post_timeout_cleanup (s : WsState) (r : PostRespIn) :
    postTimeoutSeconds = 15 ∧
    (postIssue s none).2.2 = none ∧
    postAwait SlotState.empty true = some (none, some "request timeout") ∧
    tblHas (postReturn (postIssue s none).1 (postIssue s none).2.1).postTable
      (postIssue s none).2.1 = false ∧
    processPostResponse (postReturn (postIssue s none).1 (postIssue s none).2.1)
      (postIssue s none).2.1 r
      = postReturn (postIssue s none).1 (postIssue s none).2.1 := by
  refine ⟨rfl, rfl, rfl, ?_, ?_⟩
  · simp [postIssue, postReturn, tblRemove, tblHas_tblRemove]
  · simp [processPostResponse, postIssue, postReturn, tblRemove, tblHas_tblRemove]

/-- A reachable connected state with two outstanding `Post` calls (ids 1 and
2, both callers blocked on empty response channels). -/
def pendingTwoState : WsState :=
  (postIssue (postIssue (connect true initState).1 none).1 none).1

/-- C1, evaluated at the failing input: `Disconnect` on a connected state
with two outstanding `Post` calls returns no error, removes both ids from
the correlation table and closes both response channels — but a blocked
`Post` receiving from a closed channel gets the zero value and returns a
nil payload together with a nil error, not the cancellation error the
specification describes. -/
theorem disconnect_pending_posts_nil_result :
    (disconnect true pendingTwoState).2 = none ∧
    (disconnect true pendingTwoState).1.postTable = [] ∧
    (disconnect true pendingTwoState).1.slots =
      [(2, SlotState.closed), (1, SlotState.closed)] ∧
    postAwait SlotState.closed false = some (none, none) := by decide

/-- C4, counterexample: with a handler registered under only the bare topic
type `"orderUpdates"` and an inbound message whose derived key carries a
user segment, the exact lookup misses, the scan skips the bare key (it only
matches keys strictly longer than `"orderUpdates-"`), and the message is
dropped — the bare-key handler is not invoked. -/
theorem orderUpdates_bare_key_not_found_by_scan :
    dispatchKey ⟨"orderUpdates", none, some "u1"⟩ = "orderUpdates-u1" ∧
    regLookup [("orderUpdates", 7)] "orderUpdates" = some 7 ∧
    processFeed [("orderUpdates", 7)] ⟨"orderUpdates", none, some "u1"⟩ =
      DispatchResult.dropped := by decide

/-- C4, amended: for an order-updates message whose derived key has no exact
match, dispatch is decided by the scan over keys strictly extending
`"orderUpdates-"` — the selected handler is invoked with the decoded orders,
otherwise the message is dropped; an entry registered under the bare key
`"orderUpdates"` is never selected by that scan. -/
theorem orderUpdates_scan_selects_extended_key (reg : List (String × Nat))
    (m : FeedMessage) (hch : m.channel = "orderUpdates")
    (hmiss : regLookup reg (dispatchKey m) = none) :
    processFeed reg m =
      (match orderScan reg with
       | some h => DispatchResult.invoked h true
       | none => DispatchResult.dropped) ∧
    ∀ v : Nat, orderScan [("orderUpdates", v)] = none := by
  constructor
  · cases ho : orderScan reg <;> simp [processFeed, hch, hmiss, ho]
  · intro v
    have hg : goKeyMatch ordUpdatesDash "orderUpdates" = false := by decide
    simp [orderScan, hg]

/-- Witness: a handler under the user-segmented key `"orderUpdates-u1"` is
selected by the scan for an order-updates message whose derived key is the
bare label, and is invoked with the decoded orders. -/
theorem orderUpdates_scan_selects_extended_key_witness :
    regLookup [("orderUpdates-u1", 9)] (dispatchKey ⟨"orderUpdates", none, none⟩) = none ∧
    processFeed [("orderUpdates-u1", 9)] ⟨"orderUpdates", none, none⟩ =
      DispatchResult.invoked 9 true := by
  refine ⟨by decide, ?_⟩
  have h := (orderUpdates_scan_selects_extended_key [("orderUpdates-u1", 9)]
      ⟨"orderUpdates", none, none⟩ rfl (by decide)).1
  rw [h]
  decide

/-- C5, counterexample: a handler registered under the bare channel label
`"l2Book"` is not consulted for a message whose payload contributes a coin
suffix — the final lookup reuses the suffix-derived key `"l2Book-ETH"`, so
the message is dropped instead of being delivered to the bare-label
handler. -/
theorem bare_label_not_consulted :
    regLookup [("l2Book", 5)] "l2Book" = some 5 ∧
    dispatchKey ⟨"l2Book", some "ETH", none⟩ = "l2Book-ETH" ∧
    processFeed [("l2Book", 5)] ⟨"l2Book", some "ETH", none⟩ =
      DispatchResult.dropped := by decide

/-- C5, amended: when the exact lookup of the suffix-derived key fails and,
for order updates, the scan also fails, the message is dropped — the final
lookup uses that same derived key, so no separate bare-label last resort
exists (a bare-label handler is reached only when the derived key itself is
bare). -/
theorem feed_drop_when_suffixed_lookup_fails (reg : List (String × Nat))
    (m : FeedMessage) (hmiss : regLookup reg (dispatchKey m) = none)
    (hscan : m.channel = "orderUpdates" → orderScan reg = none) :
    processFeed reg m = DispatchResult.dropped := by
  by_cases hch : m.channel = "orderUpdates"
  · simp [processFeed, hch, hmiss, hscan hch]
  · simp [processFeed, hch, hmiss]

/-- Witness: a `trades` message carrying a coin suffix that matches no
registered key is dropped even though a differently suffixed handler
exists. -/
theorem feed_drop_when_suffixed_lookup_fails_witness :
    processFeed [("trades-BTC", 4)] ⟨"trades", some "ETH", none⟩ =
      DispatchResult.dropped :=
  feed_drop_when_suffixed_lookup_fails [("trades-BTC", 4)]
    ⟨"trades", some "ETH", none⟩ (by decide) (by decide)

/-- C6, counterexample: after a successful `Connect` followed by a
successful `Disconnect`, the `connected` flag is false but the connection
handle is still non-nil — `Disconnect` never resets `conn`, so the handle
is not nil while the flag is false. -/
theorem conn_not_nil_after_disconnect :
    (disconnect true (connect true initState).1).1.connected = false ∧
    (disconnect true (connect true initState).1).1.conn = some () := by decide

/-- C6, amended: in every reachable state the connection handle is non-nil
whenever the `connected` flag is true; this half of the invariant is
preserved by `Connect`, `Disconnect`, the reader-loop exit and every other
modelled operation.  The converse fails: once connected, the handle stays
non-nil even after the flag is cleared. -/
theorem conn_some_when_connected {s : WsState} (hr : Reach s) :
    s.connected = true → s.conn = some () := by
  induction hr with
  | init =>
    intro hc
    exact absurd hc (by decide)
  | connectStep d hr ih =>
    rename_i s'
    intro hc
    by_cases h : s'.connected = true
    · exact (by simpa [connect, h] using ih h : (connect d s').1.conn = some ())
    · cases d
      · simp [connect, h] at hc
      · simp [connect, h]
  | disconnectStep c hr ih =>
    rename_i s'
    intro hc
    by_cases h : s'.connected = true
    · cases c
      · simpa [disconnect, h] using ih h
      · simp [disconnect, h] at hc
    · simp [disconnect, h] at hc
  | readExitStep hr ih =>
    intro hc
    simp [readLoopExit] at hc
  | postIssueStep e hr ih =>
    rename_i s'
    intro hc
    cases e <;>
      simpa [postIssue] using ih (by simpa [postIssue] using hc)
  | postReturnStep i hr ih =>
    intro hc
    simpa [postReturn] using ih (by simpa [postReturn] using hc)
  | postRespStep i r hr ih =>
    rename_i s'
    intro hc
    by_cases h : tblHas s'.postTable i = true <;>
      simpa [processPostResponse, h] using
        ih (by simpa [processPostResponse, h] using hc)
  | subscribeStep sub cb e hr ih =>
    intro hc
    simpa [subscribeOp] using ih (by simpa [subscribeOp] using hc)
  | unsubscribeStep sub e hr ih =>
    rename_i s'
    intro hc
    by_cases h : s'.connected = true
    · simpa [unsubscribeOp, h] using ih h
    · simp [unsubscribeOp, h] at hc

/-- Witness: the state reached by a successful `Connect` from the initial
state is connected, and the theorem yields its non-nil handle. -/
theorem conn_some_when_connected_witness :
    (connect true initState).1.conn = some () :=
  conn_some_when_connected (Reach.connectStep true Reach.init) (by decide)

/-- C8, counterexample: for a subscription whose user and coin coincide
(both `"a"`, both non-empty), the subscribe key `type-user-coin` and the
dispatch key `type-coin-user` are the same string, so dispatch does find
the handler and invokes it — refuting the claim that the lookups never
find it. -/
theorem subscribe_dispatch_key_can_coincide :
    subscribeChannelKey ⟨"activeAssetData", "a", "a", "", 0, 0, false, ""⟩ =
      "activeAssetData-a-a" ∧
    dispatchKey ⟨"activeAssetData", some "a", some "a"⟩ = "activeAssetData-a-a" ∧
    processFeed
        [(subscribeChannelKey ⟨"activeAssetData", "a", "a", "", 0, 0, false, ""⟩, 3)]
        ⟨"activeAssetData", some "a", some "a"⟩ =
      DispatchResult.invoked 3 false := by decide

/-- C8, amended: for a subscription with non-empty user and coin (and no
interval) on a topic other than `"orderUpdates"`, whenever the strings
`user-coin` and `coin-user` differ, the handler stored under the
subscribe-order key `type-user-coin` is never found by dispatch, which
looks up only the key `type-coin-user`: the message is dropped. -/
theorem subscribe_dispatch_key_mismatch (sub : Subscription) (h : Nat)
    (hu : sub.user ≠ "") (hc : sub.coin ≠ "") (hi : sub.interval = "")
    (ht : sub.typ ≠ "orderUpdates")
    (hk : sub.user ++ "-" ++ sub.coin ≠ sub.coin ++ "-" ++ sub.user) :
    processFeed [(subscribeChannelKey sub, h)]
      ⟨sub.typ, some sub.coin, some sub.user⟩ = DispatchResult.dropped := by
  have hSK : subscribeChannelKey sub =
      sub.typ ++ "-" ++ sub.user ++ "-" ++ sub.coin := by
    simp [subscribeChannelKey, hu, hc, hi]
  have hDK : dispatchKey ⟨sub.typ, some sub.coin, some sub.user⟩ =
      sub.typ ++ "-" ++ sub.coin ++ "-" ++ sub.user := by
    simp [dispatchKey]
  have hne : subscribeChannelKey sub ≠
      dispatchKey ⟨sub.typ, some sub.coin, some sub.user⟩ := by
    rw [hSK, hDK]
    exact swap_key_neq sub.typ sub.user sub.coin hk
  simp [processFeed, ht, regLookup, hne]

/-- Witness: an `activeAssetData` subscription for user `0xabc` and coin
`ETH` never receives the matching inbound message — dispatch looks up
`activeAssetData-ETH-0xabc`, not the stored `activeAssetData-0xabc-ETH`. -/
theorem subscribe_dispatch_key_mismatch_witness :
    processFeed
      [(subscribeChannelKey ⟨"activeAssetData", "0xabc", "ETH", "", 0, 0, false, ""⟩, 3)]
      ⟨"activeAssetData", some "ETH", some "0xabc"⟩ = DispatchResult.dropped :=
  subscribe_dispatch_key_mismatch
    ⟨"activeAssetData", "0xabc", "ETH", "", 0, 0, false, ""⟩ 3
    (by decide) (by decide) rfl (by decide) (by decide)
